import Mathlib

/-!
Verification development for the chessgpt page (src/src/app/page.tsx).

The page is a thin coordination layer over a chess rules engine and an LLM
completion API.  We embed its pure logic shallowly:

* the move-candidate extraction pipeline of lines 50 and 74
  (trim, split on spaces, drop tokens containing a period, take the first);
* the two query functions chatCompletionsQuery (lines 25-55) and
  completionsQuery (lines 58-79), with the request they issue made explicit
  so that "no request is sent" and "which model is asked" are provable;
* the page-level handlers setGameStateFromPGN (155-165), movePiece (167-172),
  onDrop (188-194) and the autoPlay loop body (124-148), with the React
  useState fields gathered into one explicit state record.

The chess engine (chess.js) is not part of the repository; its operations are
taken as parameters whose contracts follow the spec (section 6): move
application returns the realized move and the new position or null, and
load_pgn returns the parsed game or a failure.

JavaScript string operations are re-implemented over List Char by structural
recursion so that concrete runs reduce inside the kernel.
-/

/-- The three model identifiers offered by the page (lines 13-15). -/
inductive Model
  | gpt4
  | gpt35turbo
  | gpt35turboinstruct
deriving DecidableEq, Repr

/-- The lookup table of line 17: which models use the chat endpoint. -/
def useChatCompletions : Model → Bool
  | Model.gpt4 => true
  | Model.gpt35turbo => true
  | Model.gpt35turboinstruct => false

/-- The slice of a chess.js instance the page reads: game.moves(),
game.game_over(), game.in_draw(), game.pgn() and game.turn() === 'w'. -/
structure ChessInstance where
  moves : List String
  game_over : Bool
  in_draw : Bool
  pgn : String
  turnWhite : Bool
deriving DecidableEq, Repr

/-- Whitespace as trimmed from both ends by the JavaScript trim() call. -/
def jsWhitespace (c : Char) : Bool :=
  c == ' ' || c == '\t' || c == '\n' || c == '\r'

/-- Both-ends whitespace removal: the effect of trim() on the reply. -/
def trimChars (cs : List Char) : List Char :=
  ((cs.dropWhile jsWhitespace).reverse.dropWhile jsWhitespace).reverse

/-- JavaScript split(' '): cut at every single space, keeping empty
segments, with the empty text giving one empty segment. -/
def splitSp : List Char → List (List Char)
  | [] => [[]]
  | c :: cs =>
    let r := splitSp cs
    if c = ' ' then [] :: r
    else
      match r with
      | [] => [[c]]
      | t :: ts => (c :: t) :: ts

/-- Candidate extraction of lines 50 and 74:
trim the reply, split on spaces, drop every token that contains a period,
take the first remaining token (undefined, i.e. none, when all are dropped). -/
def extractChoice (reply : String) : Option String :=
  (((splitSp (trimChars reply.data)).filter
      (fun t => !(t.contains '.'))).head?).map String.mk

/-- JavaScript a || b on strings: the empty string is falsy. -/
def jsOrStr (a b : String) : String :=
  if a = "" then b else a

/-- Lines 51-54 and 75-78: look the candidate up among the legal moves with
find (strict string equality) and apply the falsy check of "if (!move)",
under which the empty string also counts as no move. -/
def truthyFind (possibleMoves : List String) (choice : Option String) : Option String :=
  match choice with
  | none => none
  | some c =>
    match possibleMoves.find? (fun mv => mv == c) with
    | none => none
    | some mv => if mv = "" then none else some mv

/-- The chat request of lines 29-46: model, system message, user message. -/
structure ChatRequest where
  model : Model
  system : String
  user : String
deriving DecidableEq, Repr

/-- The completion request of lines 64-72: model and the single prompt. -/
structure CompletionRequest where
  model : Model
  prompt : String
deriving DecidableEq, Repr

/-- A request sent to the LLM service, in one of the two call shapes. -/
inductive Request
  | chat : ChatRequest → Request
  | completion : CompletionRequest → Request
deriving DecidableEq, Repr

/-- The model a request names. -/
def requestModel : Request → Model
  | Request.chat r => r.model
  | Request.completion r => r.model

/-- What one call of a query function does: the request it issued, if any,
and its outcome; Except.error models the thrown "No choice found". -/
structure QueryOutcome where
  request : Option Request
  result : Except Unit (Option String)
deriving Repr

/-- chatCompletionsQuery (lines 25-55), with the service's reply content
passed in (the empty string standing for an empty or null content). -/
def chatCompletionsQuery (model : Model) (game : ChessInstance)
    (system : String) (prompt : String) (response_content : String) : QueryOutcome :=
  if game.game_over || game.in_draw || (game.moves.length == 0) then
    { request := none, result := Except.ok none }
  else
    let req := Request.chat
      { model := model, system := system
        user := jsOrStr (prompt ++ game.pgn) "1. " }
    if response_content = "" then
      { request := some req, result := Except.error () }
    else
      { request := some req
        result := Except.ok (truthyFind game.moves (extractChoice response_content)) }

/-- completionsQuery (lines 58-79): same shape, no system message and no
emptiness check on the reply. -/
def completionsQuery (model : Model) (game : ChessInstance)
    (prompt : String) (response_content : String) : QueryOutcome :=
  if game.game_over || game.in_draw || (game.moves.length == 0) then
    { request := none, result := Except.ok none }
  else
    { request := some (Request.completion
        { model := model, prompt := jsOrStr (prompt ++ game.pgn) "1. " })
      result := Except.ok (truthyFind game.moves (extractChoice response_content)) }

/-- Modelled from the spec: first token without a period, written from the
words of spec section 4.2 step 4 ("discard tokens containing a period ...
take the first remaining token as the candidate"), for comparison with the
filter-then-index pipeline of the source. -/
def firstWithoutPeriod : List (List Char) → Option (List Char)
  | [] => none
  | t :: ts => if t.contains '.' then firstWithoutPeriod ts else some t

/-- Modelled from the spec: the whole extraction step as section 4.2 words it,
sharing the trim and split embeddings with the source-side definition. -/
def extractCandidateSpec (reply : String) : Option String :=
  (firstWithoutPeriod (splitSp (trimChars reply.data))).map String.mk

lemma head_filter_eq_first (ts : List (List Char)) :
    (ts.filter (fun t => !(t.contains '.'))).head? = firstWithoutPeriod ts := by
  induction ts with
  | nil => rfl
  | cons t ts ih =>
    cases h : t.contains '.' with
    | true =>
      have hm : '.' ∈ t := by simpa using h
      simpa [List.filter_cons, hm, firstWithoutPeriod] using ih
    | false =>
      have hm : '.' ∉ t := by simpa using h
      simp [List.filter_cons, hm, firstWithoutPeriod]

/-- C2: for every raw reply text, candidate extraction trims surrounding
whitespace, splits on spaces, discards every space-delimited token containing
a period, and takes the first remaining token: the source's
filter-then-take-first pipeline agrees with the spec's discard-then-first
description on every input. -/
theorem extract_matches_specification (reply : String) :
    extractChoice reply = extractCandidateSpec reply := by
  unfold extractChoice extractCandidateSpec
  rw [head_filter_eq_first]

lemma find_beq_eq (l : List String) (c : String) :
    l.find? (fun mv => mv == c) = if c ∈ l then some c else none := by
  induction l with
  | nil => simp
  | cons a l ih =>
    by_cases hac : a = c
    · subst hac
      simp [List.find?_cons]
    · have hb : (a == c) = false := by simp [hac]
      rw [List.find?_cons, hb, ih]
      by_cases hcl : c ∈ l
      · simp [hcl, List.mem_cons]
      · have hno : c ∉ a :: l := by
          simp [List.mem_cons, hcl]
          exact fun h => hac h.symm
        simp [hcl, hno]

lemma truthyFind_eq (moves : List String) (cand : Option String)
    (hmv : "" ∉ moves) :
    truthyFind moves cand
      = cand.bind (fun c => if c ∈ moves then some c else none) := by
  cases cand with
  | none => rfl
  | some c =>
    have h1 : truthyFind moves (some c)
        = match moves.find? (fun mv => mv == c) with
          | none => none
          | some mv => if mv = "" then none else some mv := rfl
    rw [h1, find_beq_eq]
    by_cases hc : c ∈ moves
    · have hne : c ≠ "" := fun h => hmv (h ▸ hc)
      simp [hc, hne]
    · simp [hc]

/-- A small non-terminal position used to exercise the theorems below. -/
def sampleGame : ChessInstance :=
  { moves := ["e4", "d4"], game_over := false, in_draw := false
    pgn := "", turnWhite := true }

/-- A checkmated position: no legal moves, game over. -/
def terminalGame : ChessInstance :=
  { moves := [], game_over := true, in_draw := false
    pgn := "1. f3 e5 2. g4 Qh4#", turnWhite := true }

/-- C1: for every game state and every raw reply text, both query functions
return the extracted candidate exactly when it is string-equal to an entry of
the legal-move list, and null otherwise.  The hypotheses restrict to the case
the claim is about: a position that is not terminal (that case returns early,
see queries_skip_terminal), legal moves that are well formed (the engine never
produces an empty move token), and, for the chat variant, a non-empty reply
(an empty one is thrown, see empty_reply_outcomes). -/
theorem query_validates_candidate (model : Model) (game : ChessInstance)
    (system prompt reply : String)
    (hlive : (game.game_over || game.in_draw || (game.moves.length == 0)) = false)
    (hmv : "" ∉ game.moves) (hr : reply ≠ "") :
    (chatCompletionsQuery model game system prompt reply).result
        = Except.ok ((extractChoice reply).bind
            (fun c => if c ∈ game.moves then some c else none))
    ∧ (completionsQuery model game prompt reply).result
        = Except.ok ((extractChoice reply).bind
            (fun c => if c ∈ game.moves then some c else none)) := by
  constructor
  · simp [chatCompletionsQuery, hlive, hr, truthyFind_eq game.moves _ hmv]
  · simp [completionsQuery, hlive, truthyFind_eq game.moves _ hmv]

/-- Witness for C1 at a concrete input: in the sample position, the reply
"1. e4 is strong" yields the candidate e4, which is legal and returned. -/
theorem query_validates_candidate_check :
    ((sampleGame.game_over || sampleGame.in_draw || (sampleGame.moves.length == 0)) = false)
    ∧ ("" ∉ sampleGame.moves)
    ∧ ("1. e4 is strong" ≠ "")
    ∧ extractChoice "1. e4 is strong" = some "e4"
    ∧ (chatCompletionsQuery Model.gpt4 sampleGame "S" "P" "1. e4 is strong").result
        = Except.ok ((extractChoice "1. e4 is strong").bind
            (fun c => if c ∈ sampleGame.moves then some c else none))
    ∧ (completionsQuery Model.gpt4 sampleGame "P" "1. e4 is strong").result
        = Except.ok ((extractChoice "1. e4 is strong").bind
            (fun c => if c ∈ sampleGame.moves then some c else none)) :=
  ⟨rfl, by decide, by decide, by decide,
   (query_validates_candidate Model.gpt4 sampleGame "S" "P" "1. e4 is strong"
      rfl (by decide) (by decide)).1,
   (query_validates_candidate Model.gpt4 sampleGame "S" "P" "1. e4 is strong"
      rfl (by decide) (by decide)).2⟩

/-- C3: in a terminal position (game over, draw, or empty legal-move list)
both query functions return null at once and issue no request. -/
theorem queries_skip_terminal (model : Model) (game : ChessInstance)
    (system prompt reply : String)
    (h : game.game_over = true ∨ game.in_draw = true ∨ game.moves = []) :
    chatCompletionsQuery model game system prompt reply
        = { request := none, result := Except.ok none }
    ∧ completionsQuery model game prompt reply
        = { request := none, result := Except.ok none } := by
  have hcond : (game.game_over || game.in_draw || (game.moves.length == 0)) = true := by
    rcases h with h | h | h <;> simp [h]
  constructor
  · simp [chatCompletionsQuery, hcond]
  · simp [completionsQuery, hcond]

/-- Witness for C3 at a concrete input: the checkmated sample position. -/
theorem queries_skip_terminal_check :
    (terminalGame.game_over = true ∨ terminalGame.in_draw = true ∨ terminalGame.moves = [])
    ∧ chatCompletionsQuery Model.gpt4 terminalGame "S" "P" "e4"
        = { request := none, result := Except.ok none }
    ∧ completionsQuery Model.gpt4 terminalGame "P" "e4"
        = { request := none, result := Except.ok none } :=
  ⟨Or.inl rfl,
   (queries_skip_terminal Model.gpt4 terminalGame "S" "P" "e4" (Or.inl rfl)).1,
   (queries_skip_terminal Model.gpt4 terminalGame "S" "P" "e4" (Or.inl rfl)).2⟩

/-- A move argument as movePiece accepts it (line 167): either the
from/to/promotion triple built by onDrop (line 189) or a notation token. -/
inductive MoveArg
  | short (fromSq toSq promotion : String)
  | san (token : String)
deriving DecidableEq, Repr

/-- The useState fields of the PlayEngine component (lines 82-88 and
104-106), plus scheduledNext recording whether the step called
setTimeout(autoPlay, 200) to schedule a further cycle. -/
structure PlayEngineState where
  game : ChessInstance
  model : Model
  model2 : Model
  systemPrompt : String
  userPrompt : String
  PGNInput : String
  lastMessage : String
  retryCount : Nat
  isAutoPlay : Bool
  scheduledNext : Bool
deriving DecidableEq, Repr

/-- setGameStateFromPGN (lines 155-165).  The engine's load_pgn is a
parameter, modelled from the spec (section 4.1): it parses a full
game-notation string into a replacement game, or fails.  On failure the
handler writes the error text into the PGN input box and returns; on success
it clears the input and installs the parsed game. -/
def setGameStateFromPGN (load_pgn : String → Option ChessInstance)
    (s : PlayEngineState) (pgn : String) : PlayEngineState :=
  match load_pgn pgn with
  | none => { s with PGNInput := "Invalid PGN provided" }
  | some g2 => { s with PGNInput := "", game := g2 }

/-- C5: loading a well-formed PGN string replaces the game wholesale and
clears the pending input; loading a malformed one leaves the game (and every
other field but the input box) unchanged and makes an error visible in the
input box.  getD states both at once: the parsed game when parsing succeeds,
the prior game otherwise. -/
theorem setGameStateFromPGN_spec (load_pgn : String → Option ChessInstance)
    (s : PlayEngineState) (pgn : String) :
    (setGameStateFromPGN load_pgn s pgn).game = (load_pgn pgn).getD s.game
    ∧ (setGameStateFromPGN load_pgn s pgn).PGNInput
        = (match load_pgn pgn with
           | none => "Invalid PGN provided"
           | some _ => "")
    ∧ (setGameStateFromPGN load_pgn s pgn).lastMessage = s.lastMessage
    ∧ (setGameStateFromPGN load_pgn s pgn).model = s.model
    ∧ (setGameStateFromPGN load_pgn s pgn).model2 = s.model2
    ∧ (setGameStateFromPGN load_pgn s pgn).systemPrompt = s.systemPrompt
    ∧ (setGameStateFromPGN load_pgn s pgn).userPrompt = s.userPrompt
    ∧ (setGameStateFromPGN load_pgn s pgn).retryCount = s.retryCount
    ∧ (setGameStateFromPGN load_pgn s pgn).isAutoPlay = s.isAutoPlay
    ∧ (setGameStateFromPGN load_pgn s pgn).scheduledNext = s.scheduledNext := by
  cases h : load_pgn pgn <;> simp [setGameStateFromPGN, h]

/-- movePiece (lines 167-172).  The engine's move application is a
parameter, modelled from the spec (sections 4.1 and 6): it validates the
argument against the current position and returns the realized move token
with the successor position, or null for an illegal move, in which case the
copied instance is left as it was. -/
def movePiece (engineMove : ChessInstance → MoveArg → Option (String × ChessInstance))
    (s : PlayEngineState) (mv : MoveArg) : Option String × PlayEngineState :=
  match engineMove s.game mv with
  | none => (none, s)
  | some (m, g2) => (some m, { s with game := g2 })

/-- C6: applying an illegal move returns null and mutates nothing (the game
equals the prior game, no partial application); applying a legal move returns
the realized move and installs the successor position.  Every field other
than the game is untouched in both cases. -/
theorem movePiece_frame (engineMove : ChessInstance → MoveArg → Option (String × ChessInstance))
    (s : PlayEngineState) (mv : MoveArg) :
    (movePiece engineMove s mv).1 = Option.map Prod.fst (engineMove s.game mv)
    ∧ (movePiece engineMove s mv).2.game
        = (Option.map Prod.snd (engineMove s.game mv)).getD s.game
    ∧ (movePiece engineMove s mv).2.PGNInput = s.PGNInput
    ∧ (movePiece engineMove s mv).2.lastMessage = s.lastMessage
    ∧ (movePiece engineMove s mv).2.model = s.model
    ∧ (movePiece engineMove s mv).2.model2 = s.model2
    ∧ (movePiece engineMove s mv).2.systemPrompt = s.systemPrompt
    ∧ (movePiece engineMove s mv).2.userPrompt = s.userPrompt
    ∧ (movePiece engineMove s mv).2.retryCount = s.retryCount
    ∧ (movePiece engineMove s mv).2.isAutoPlay = s.isAutoPlay
    ∧ (movePiece engineMove s mv).2.scheduledNext = s.scheduledNext := by
  cases h : engineMove s.game mv with
  | none => simp [movePiece, h]
  | some p =>
    cases p with
    | mk m g2 => simp [movePiece, h]

/-- The dispatch written at lines 128-130, 192 and 220: query the chat
endpoint when the lookup table says so for the given model, the completion
endpoint otherwise (the bodies of makeChatCompletionsMove and
makeCompletionsMove, lines 174-186, reduced to the query they issue). -/
def queryForModel (m : Model) (s : PlayEngineState) (reply : String) : QueryOutcome :=
  if useChatCompletions m then
    chatCompletionsQuery m s.game s.systemPrompt s.userPrompt reply
  else
    completionsQuery m s.game s.userPrompt reply

/-- The query issued by the force-move button (line 220): it always passes
the first model slot, the state's model field. -/
def forceMoveQuery (s : PlayEngineState) (reply : String) : QueryOutcome :=
  queryForModel s.model s reply

/-- onDrop (lines 188-194), reduced to the proposer query it triggers: apply
the dropped move with promotion "q"; if illegal, no query happens; if legal,
auto-play is switched off and the slot-one dispatch of line 192 runs on the
updated state. -/
def onDropQuery (engineMove : ChessInstance → MoveArg → Option (String × ChessInstance))
    (s : PlayEngineState) (sourceSquare targetSquare reply : String) : Option QueryOutcome :=
  match movePiece engineMove s (MoveArg.short sourceSquare targetSquare "q") with
  | (none, _) => none
  | (some _, s2) => some (forceMoveQuery { s2 with isAutoPlay := false } reply)

/-- The query issued by one auto-play cycle (lines 127-130): the model is
chosen by whose turn it is, slot one for white and slot two for black. -/
def autoPlayQuery (s : PlayEngineState) (reply : String) : QueryOutcome :=
  queryForModel (if s.game.turnWhite then s.model else s.model2) s reply

lemma chat_request_model (m : Model) (g : ChessInstance) (sys p reply : String) :
    Option.elim (chatCompletionsQuery m g sys p reply).request True
      (fun r => requestModel r = m) := by
  unfold chatCompletionsQuery
  by_cases hterm : (g.game_over || g.in_draw || (g.moves.length == 0)) = true
  · simp [hterm, Option.elim]
  · by_cases hr : reply = "" <;>
      simp [hterm, hr, Option.elim, requestModel]

lemma completions_request_model (m : Model) (g : ChessInstance) (p reply : String) :
    Option.elim (completionsQuery m g p reply).request True
      (fun r => requestModel r = m) := by
  unfold completionsQuery
  by_cases hterm : (g.game_over || g.in_draw || (g.moves.length == 0)) = true <;>
    simp [hterm, Option.elim, requestModel]

lemma queryForModel_request_model (m : Model) (s : PlayEngineState) (reply : String) :
    Option.elim (queryForModel m s reply).request True
      (fun r => requestModel r = m) := by
  unfold queryForModel
  cases hm : useChatCompletions m
  · simpa [hm] using completions_request_model m s.game s.userPrompt reply
  · simpa [hm] using chat_request_model m s.game s.systemPrompt s.userPrompt reply

/-- C10: the proposer cycle triggered by a manual board drop and the one
triggered by the force-move button always name the first model slot in their
request, whatever the turn, and their outcome does not depend on the second
slot at all; the auto-play cycle is the only one that names the second slot,
and only when it is black's turn. -/
theorem manual_and_auto_model_slots
    (engineMove : ChessInstance → MoveArg → Option (String × ChessInstance))
    (s : PlayEngineState) (m2 : Model) (sourceSquare targetSquare reply : String) :
    Option.elim (forceMoveQuery s reply).request True
      (fun r => requestModel r = s.model)
    ∧ forceMoveQuery { s with model2 := m2 } reply = forceMoveQuery s reply
    ∧ onDropQuery engineMove { s with model2 := m2 } sourceSquare targetSquare reply
        = onDropQuery engineMove s sourceSquare targetSquare reply
    ∧ Option.elim (onDropQuery engineMove s sourceSquare targetSquare reply) True
        (fun q => Option.elim q.request True (fun r => requestModel r = s.model))
    ∧ Option.elim (autoPlayQuery s reply).request True
        (fun r => requestModel r = (if s.game.turnWhite then s.model else s.model2)) := by
  refine ⟨queryForModel_request_model s.model s reply, rfl, ?_, ?_, ?_⟩
  · show (match movePiece engineMove { s with model2 := m2 }
            (MoveArg.short sourceSquare targetSquare "q") with
          | (none, _) => none
          | (some _, s2) => some (forceMoveQuery { s2 with isAutoPlay := false } reply))
        = onDropQuery engineMove s sourceSquare targetSquare reply
    unfold onDropQuery movePiece
    cases engineMove s.game (MoveArg.short sourceSquare targetSquare "q") with
    | none => rfl
    | some p => cases p with | mk m g2 => rfl
  · unfold onDropQuery movePiece
    cases engineMove s.game (MoveArg.short sourceSquare targetSquare "q") with
    | none => trivial
    | some p =>
      cases p with
      | mk m g2 =>
        simpa [Option.elim] using
          queryForModel_request_model s.model
            { s with game := g2, isAutoPlay := false } reply
  · cases ht : s.game.turnWhite <;>
      simpa [autoPlayQuery, ht] using
        queryForModel_request_model (if s.game.turnWhite then s.model else s.model2) s reply

/-- The status text of line 140. -/
def stoppedMessage : String :=
  "No/invalid move found by model after 3 retries. AutoPlay stopped."

/-- One resolution of the autoPlay body (lines 124-148).  The cycle reads
the liveness ref once, at its start (line 125): s.isAutoPlay is that
reading.  flagAtResolve is the value the ref holds when the awaited query
resolves; the source never reads it again, so the definition takes it and
ignores it.  move is the resolved query result.  On no move with fewer than
3 retries the counter is bumped and another cycle is scheduled; on no move at
the limit auto-play is disabled, the counter reset and the terminal message
surfaced; on a move the counter resets, the move is reported and applied, and
the next cycle is scheduled. -/
def autoPlayCycle (engineMove : ChessInstance → MoveArg → Option (String × ChessInstance))
    (s : PlayEngineState) (_flagAtResolve : Bool) (move : Option String) : PlayEngineState :=
  if !s.isAutoPlay then { s with scheduledNext := false }
  else
    match move with
    | none =>
      if s.retryCount < 3 then
        { s with retryCount := s.retryCount + 1, scheduledNext := true }
      else
        { s with isAutoPlay := false, retryCount := 0
                 lastMessage := stoppedMessage, scheduledNext := false }
    | some m =>
      let s2 := (movePiece engineMove
        { s with retryCount := 0, lastMessage := "Model suggests move: " ++ m ++ "." }
        (MoveArg.san m)).2
      { s2 with scheduledNext := true }

/-- The state of the component at the moment auto-play starts: flag on,
retry counter at zero, every other field arbitrary. -/
def autoPlayStart (g : ChessInstance) (m1 m2 : Model)
    (sp up pi msg : String) : PlayEngineState :=
  { game := g, model := m1, model2 := m2, systemPrompt := sp, userPrompt := up
    PGNInput := pi, lastMessage := msg, retryCount := 0, isAutoPlay := true
    scheduledNext := false }

/-- The chained no-move loop as the source actually runs it.  The effect of
lines 108-118 schedules the autoPlay closure of the render in which the flag
turned on; inside that closure, setTimeout(autoPlay, 200) at lines 135 and
147 re-registers the very same closure, and the effect re-runs only when
isAutoPlay changes.  Only the flag is read through a ref (lines 106, 120-122,
125); retryCount is the captured per-render const of line 88, so every
chained cycle reads the same captured value, while its setRetryCount write
does land in the state.  autoPlayStaleCycle is autoPlayCycle with the two
retryCount reads of lines 133-134 replaced by that captured value. -/
def autoPlayStaleCycle (engineMove : ChessInstance → MoveArg → Option (String × ChessInstance))
    (captured : Nat) (s : PlayEngineState) (move : Option String) : PlayEngineState :=
  if !s.isAutoPlay then { s with scheduledNext := false }
  else
    match move with
    | none =>
      if captured < 3 then
        { s with retryCount := captured + 1, scheduledNext := true }
      else
        { s with isAutoPlay := false, retryCount := 0
                 lastMessage := stoppedMessage, scheduledNext := false }
    | some m =>
      let s2 := (movePiece engineMove
        { s with retryCount := 0, lastMessage := "Model suggests move: " ++ m ++ "." }
        (MoveArg.san m)).2
      { s2 with scheduledNext := true }

/-- k consecutive cycles of the same rescheduled closure, each resolving to
no move: every one reads the retryCount captured when the loop started. -/
def autoPlayStaleRun (engineMove : ChessInstance → MoveArg → Option (String × ChessInstance))
    (captured : Nat) (s : PlayEngineState) : Nat → PlayEngineState
  | 0 => s
  | n + 1 => autoPlayStaleCycle engineMove captured (autoPlayStaleRun engineMove captured s n) none

/-- C4 is a code bug: evaluating the loop at the failing input (auto-play
started with the counter at 0, the model returning no usable move on every
consecutive cycle).  The claim, the terminal message of line 140 and the
spec say three consecutive no-move outcomes halt the loop; but because every
rescheduled cycle reads the captured counter 0, after any number of
consecutive no-move cycles auto-play is still enabled, the state counter
is stuck at 1, another cycle is always scheduled, and the terminal message
never appears: the halt branch of lines 137-140 is unreachable. -/
theorem autoPlay_stale_never_halts
    (engineMove : ChessInstance → MoveArg → Option (String × ChessInstance))
    (g : ChessInstance) (m1 m2 : Model) (sp up pi msg : String) (n : Nat) :
    (autoPlayStaleRun engineMove 0 (autoPlayStart g m1 m2 sp up pi msg) (n + 1)).isAutoPlay = true
    ∧ (autoPlayStaleRun engineMove 0 (autoPlayStart g m1 m2 sp up pi msg) (n + 1)).retryCount = 1
    ∧ (autoPlayStaleRun engineMove 0 (autoPlayStart g m1 m2 sp up pi msg) (n + 1)).scheduledNext = true
    ∧ (autoPlayStaleRun engineMove 0 (autoPlayStart g m1 m2 sp up pi msg) (n + 1)).lastMessage = msg
    ∧ (autoPlayStaleRun engineMove 0 (autoPlayStart g m1 m2 sp up pi msg) (n + 1)).game = g := by
  induction n with
  | zero => exact ⟨rfl, rfl, rfl, rfl, rfl⟩
  | succ k ih =>
    obtain ⟨h1, h2, h3, h4, h5⟩ := ih
    have hstep : autoPlayStaleRun engineMove 0 (autoPlayStart g m1 m2 sp up pi msg) (k + 1 + 1)
        = { autoPlayStaleRun engineMove 0 (autoPlayStart g m1 m2 sp up pi msg) (k + 1) with
            retryCount := 1, scheduledNext := true } := by
      show autoPlayStaleCycle engineMove 0
          (autoPlayStaleRun engineMove 0 (autoPlayStart g m1 m2 sp up pi msg) (k + 1)) none
        = _
      simp [autoPlayStaleCycle, h1]
    rw [hstep]
    exact ⟨h1, rfl, rfl, h4, h5⟩

/-- A concrete live component state: auto-play on, counter at zero. -/
def sampleState : PlayEngineState :=
  { game := sampleGame, model := Model.gpt4, model2 := Model.gpt35turbo
    systemPrompt := "S", userPrompt := "P", PGNInput := "", lastMessage := ""
    retryCount := 0, isAutoPlay := true, scheduledNext := false }

/-- A concrete engine that accepts every move: it realizes the token e4 and
extends the recorded notation. -/
def sampleEngineMove (g : ChessInstance) (mv : MoveArg) : Option (String × ChessInstance) :=
  match mv with
  | MoveArg.short _ _ _ => some ("e4", { g with pgn := g.pgn ++ " e4" })
  | MoveArg.san _ => some ("e4", { g with pgn := g.pgn ++ " e4" })

/-- C7 counterexample: the flag has been toggled off while the request was in
flight (it reads false at resolution), yet the resolved move is not
discarded: the cycle applies it to the game, reports it, and schedules a
further cycle. -/
theorem autoPlay_inflight_not_discarded :
    (autoPlayCycle sampleEngineMove sampleState false (some "e4")).game
        ≠ sampleState.game
    ∧ (autoPlayCycle sampleEngineMove sampleState false (some "e4")).game.pgn = " e4"
    ∧ (autoPlayCycle sampleEngineMove sampleState false (some "e4")).scheduledNext = true
    ∧ (autoPlayCycle sampleEngineMove sampleState false (some "e4")).lastMessage
        = "Model suggests move: e4." := by
  refine ⟨?_, rfl, rfl, rfl⟩
  decide

/-- C7 amended: toggling the auto-play flag off while an LLM request is in
flight does not discard its result.  The ref is only consulted at the start
of a cycle: a cycle that began live behaves identically whatever the flag
reads at resolution time, in particular it applies the resolved move and
schedules one further cycle; only that next cycle, finding the flag off,
does nothing and schedules nothing. -/
theorem autoPlayCycle_resolve_flag
    (engineMove : ChessInstance → MoveArg → Option (String × ChessInstance))
    (s : PlayEngineState) (f1 f2 : Bool) (move : Option String) (m : String)
    (h : s.isAutoPlay = true) :
    autoPlayCycle engineMove s f1 move = autoPlayCycle engineMove s f2 move
    ∧ (autoPlayCycle engineMove s f1 (some m)).game
        = (Option.map Prod.snd (engineMove s.game (MoveArg.san m))).getD s.game
    ∧ (autoPlayCycle engineMove s f1 (some m)).scheduledNext = true
    ∧ autoPlayCycle engineMove { s with isAutoPlay := false } f1 move
        = { s with isAutoPlay := false, scheduledNext := false } := by
  refine ⟨rfl, ?_, ?_, rfl⟩
  · cases hm : engineMove s.game (MoveArg.san m) with
    | none => simp [autoPlayCycle, movePiece, h, hm]
    | some p =>
      cases p with
      | mk mt g2 => simp [autoPlayCycle, movePiece, h, hm]
  · cases hm : engineMove s.game (MoveArg.san m) with
    | none => simp [autoPlayCycle, movePiece, h, hm]
    | some p =>
      cases p with
      | mk mt g2 => simp [autoPlayCycle, movePiece, h, hm]

/-- Witness for the amended C7 at a concrete input: a live cycle whose flag
reads false at resolution still applies e4 and schedules the next cycle. -/
theorem autoPlayCycle_resolve_flag_check :
    sampleState.isAutoPlay = true
    ∧ autoPlayCycle sampleEngineMove sampleState false (some "e4")
        = autoPlayCycle sampleEngineMove sampleState true (some "e4")
    ∧ (autoPlayCycle sampleEngineMove sampleState false (some "e4")).game
        = (Option.map Prod.snd (sampleEngineMove sampleState.game (MoveArg.san "e4"))).getD
            sampleState.game
    ∧ (autoPlayCycle sampleEngineMove sampleState false (some "e4")).scheduledNext = true
    ∧ autoPlayCycle sampleEngineMove { sampleState with isAutoPlay := false } false (some "e4")
        = { sampleState with isAutoPlay := false, scheduledNext := false } :=
  ⟨rfl,
   (autoPlayCycle_resolve_flag sampleEngineMove sampleState false true (some "e4") "e4" rfl).1,
   (autoPlayCycle_resolve_flag sampleEngineMove sampleState false true (some "e4") "e4" rfl).2.1,
   (autoPlayCycle_resolve_flag sampleEngineMove sampleState false true (some "e4") "e4" rfl).2.2.1,
   (autoPlayCycle_resolve_flag sampleEngineMove sampleState false true (some "e4") "e4" rfl).2.2.2⟩

/-- C8 counterexample: in a position whose PGN serialization is empty and
with the non-empty user prompt "P", the text sent to the service is just
"P" — the minimal default prefix "1. " is not appended, contrary to the
claim that the sent text would be the prompt with "1. " in place of the
empty serialization.  The grouping of line 38 is (prompt + pgn) || fallback,
so a non-empty prompt hides the fallback. -/
theorem sent_text_fallback_cex :
    sampleGame.pgn = ""
    ∧ (chatCompletionsQuery Model.gpt4 sampleGame "S" "P" "e4").request
        = some (Request.chat { model := Model.gpt4, system := "S", user := "P" })
    ∧ (completionsQuery Model.gpt4 sampleGame "P" "e4").request
        = some (Request.completion { model := Model.gpt4, prompt := "P" })
    ∧ ("P" : String) ≠ "P" ++ "1. " := by
  refine ⟨rfl, rfl, rfl, ?_⟩
  decide

/-- C8 amended: the text sent to the service is prompt ++ pgn whenever that
concatenation is non-empty — in particular, with an empty serialization and a
non-empty prompt the sent text is just the prompt, without the default
prefix; only when prompt and serialization are both empty does the fallback
"1. " replace the whole text.  Both call shapes build the text the same way. -/
theorem query_sent_text (model : Model) (game : ChessInstance)
    (system prompt reply : String)
    (hlive : (game.game_over || game.in_draw || (game.moves.length == 0)) = false) :
    (chatCompletionsQuery model game system prompt reply).request
        = some (Request.chat
            { model := model, system := system
              user := if prompt ++ game.pgn = "" then "1. " else prompt ++ game.pgn })
    ∧ (completionsQuery model game prompt reply).request
        = some (Request.completion
            { model := model
              prompt := if prompt ++ game.pgn = "" then "1. " else prompt ++ game.pgn }) := by
  constructor
  · by_cases hr : reply = "" <;>
      simp [chatCompletionsQuery, hlive, hr, jsOrStr]
  · simp [completionsQuery, hlive, jsOrStr]

/-- Witness for the amended C8 at a concrete input: empty serialization,
prompt "P", sent text "P" in both call shapes. -/
theorem query_sent_text_check :
    ((sampleGame.game_over || sampleGame.in_draw || (sampleGame.moves.length == 0)) = false)
    ∧ (chatCompletionsQuery Model.gpt4 sampleGame "S" "P" "e4").request
        = some (Request.chat
            { model := Model.gpt4, system := "S"
              user := if "P" ++ sampleGame.pgn = "" then "1. " else "P" ++ sampleGame.pgn })
    ∧ (completionsQuery Model.gpt4 sampleGame "P" "e4").request
        = some (Request.completion
            { model := Model.gpt4
              prompt := if "P" ++ sampleGame.pgn = "" then "1. " else "P" ++ sampleGame.pgn }) :=
  ⟨rfl,
   (query_sent_text Model.gpt4 sampleGame "S" "P" "e4" rfl).1,
   (query_sent_text Model.gpt4 sampleGame "S" "P" "e4" rfl).2⟩

/-- C9 counterexample: for the completion-style query an empty response body
is not surfaced as a thrown condition — the function performs no emptiness
check (line 73 straight to line 74) and simply returns null, Except.ok none,
never Except.error. -/
theorem empty_reply_not_thrown_cex :
    (completionsQuery Model.gpt35turboinstruct sampleGame "P" "").result
        = Except.ok none
    ∧ (completionsQuery Model.gpt35turboinstruct sampleGame "P" "").result
        ≠ Except.error () :=
  ⟨rfl, fun h => Except.noConfusion h⟩

/-- C9 amended: only the chat-style query raises a thrown condition on an
empty response body (line 49, "No choice found"); the completion-style query
treats an empty body like any other unusable reply and returns null. -/
theorem empty_reply_outcomes (model : Model) (game : ChessInstance)
    (system prompt : String)
    (hlive : (game.game_over || game.in_draw || (game.moves.length == 0)) = false)
    (hmv : "" ∉ game.moves) :
    (chatCompletionsQuery model game system prompt "").result = Except.error ()
    ∧ (completionsQuery model game prompt "").result = Except.ok none := by
  constructor
  · simp [chatCompletionsQuery, hlive]
  · have h1 : extractChoice "" = some "" := rfl
    have h2 : truthyFind game.moves (some "") = none := by
      rw [truthyFind_eq game.moves (some "") hmv]
      simp [hmv]
    simp [completionsQuery, hlive, h1, h2]

/-- Witness for the amended C9 at a concrete input: the sample position with
an empty reply — the chat query throws, the completion query returns null. -/
theorem empty_reply_outcomes_check :
    ((sampleGame.game_over || sampleGame.in_draw || (sampleGame.moves.length == 0)) = false)
    ∧ ("" ∉ sampleGame.moves)
    ∧ (chatCompletionsQuery Model.gpt4 sampleGame "S" "P" "").result = Except.error ()
    ∧ (completionsQuery Model.gpt4 sampleGame "P" "").result = Except.ok none :=
  ⟨rfl, by decide,
   (empty_reply_outcomes Model.gpt4 sampleGame "S" "P" rfl (by decide)).1,
   (empty_reply_outcomes Model.gpt4 sampleGame "S" "P" rfl (by decide)).2⟩
